import Mathlib

/-!
Shallow embedding of the tool methods of the `get-started-with-hyphae`
example agents (Research, Code, code_diff Code, Realtor) and proofs about
their availability predicates, state transitions and result shapes.

External effects (the filesystem, subprocess execution, file upload, HTTP
calls) are modelled by explicit parameters: a filesystem is an association
list from paths to contents, and each fallible external call is passed its
outcome as an argument.  Python exceptions that escape a tool method are
modelled by `Except`; tool methods that catch every exception are total
functions into plain result types.
-/

/-- Python `str.splitlines` on a character list, recognising the line
terminators that occur in this development: `\n`, `\r\n` and `\r`.
A trailing terminator does not produce a final empty line. -/
def pySplitlinesAux : List Char → List Char → List String
  | [], acc => if acc.isEmpty then [] else [String.mk acc.reverse]
  | '\r' :: '\n' :: rest, acc => String.mk acc.reverse :: pySplitlinesAux rest []
  | '\n' :: rest, acc => String.mk acc.reverse :: pySplitlinesAux rest []
  | '\r' :: rest, acc => String.mk acc.reverse :: pySplitlinesAux rest []
  | c :: rest, acc => pySplitlinesAux rest (c :: acc)

/-- Python `str.splitlines`. -/
def pySplitlines (s : String) : List String :=
  pySplitlinesAux s.data []

/-- Python `str.strip()`: remove leading and trailing whitespace. -/
def pyStrip (s : String) : String :=
  String.mk (((s.data.dropWhile Char.isWhitespace).reverse.dropWhile Char.isWhitespace).reverse)

/-- Characters after the last `/`, accumulating the current segment. -/
def basenameAux : List Char → List Char → List Char
  | [], acc => acc.reverse
  | '/' :: rest, _ => basenameAux rest []
  | c :: rest, acc => basenameAux rest (c :: acc)

/-- Python `os.path.basename`: the part of the path after the last slash. -/
def basename (p : String) : String :=
  String.mk (basenameAux p.data [])

/-- Python `str.startswith` (also `String.startsWith`, restated over the
character list so that it evaluates by kernel reduction). -/
def pyStartsWith (s pre : String) : Bool :=
  pre.data.isPrefixOf s.data

/-- Containment of `sub` in a character list, as in Python `s.find(sub) >= 0`. -/
def listContains (sub : List Char) : List Char → Bool
  | [] => sub.isEmpty
  | c :: rest => sub.isPrefixOf (c :: rest) || listContains sub rest

/-- Python `s.find(sub) >= 0` (substring containment). -/
def strContains (s sub : String) : Bool :=
  listContains sub.data s.data

/-- Whether an `Except` value is a success. -/
def exceptOk : Except ε α → Bool
  | .ok _ => true
  | .error _ => false

/-- Models Python `"\n".join(difflib.unified_diff(a, b, fromfile, tofile,
lineterm=""))`.  `difflib` is the Python standard library, external to this
repository; the model is faithful in the properties relied on here: the
joined output is empty exactly when the two line lists are equal, and
otherwise it begins with the `---`/`+++` file-header lines of a unified
diff. -/
def unifiedDiffJoined (a b : List String) (fromfile tofile : String) : String :=
  if a == b then ""
  else "--- " ++ (fromfile ++ "\n+++ " ++ tofile
    ++ "\n@@ -1," ++ toString a.length ++ " +1," ++ toString b.length ++ " @@"
    ++ String.join (a.map (fun l => "\n-" ++ l) ++ b.map (fun l => "\n+" ++ l)))

/-- A filesystem: an association list from absolute paths to file contents.
Directories are not modelled (`os.makedirs` has no observable effect on the
path-to-content map). -/
abbrev FS := List (String × String)

/-- Read a file: `Path.exists` / `Path.read_text`. -/
def fsRead (fs : FS) (p : String) : Option String :=
  fs.lookup p

/-- Write a file: `open(path, "w")` / `Path.write_text`. -/
def fsWrite (fs : FS) (p c : String) : FS :=
  (p, c) :: fs

/-- The result proto of the response tools (`RespondToUserReturnType`):
a response string plus attached files. -/
structure RespondToUserReturnType where
  response : String
  files : List String
deriving DecidableEq

/-- Outcome of a `subprocess.check_output` call, passed to the embeddings of
the `ExecuteCommand` tools as an explicit parameter. -/
inductive ShellOutcome where
  | ok (output : String)
  | calledProcessError (returncode : Int) (output : String)
  | timeoutExpired
  | otherError (msg : String) (trace : String)
deriving DecidableEq

/-! ### Research agent (`GettingStarted/Research/research.py`, identical in
`example_apps/Research/research.py`) -/

/-- Per-session state of the `Research` class: notepad, follow-up flag,
start time and minimum duration.  Timestamps are modelled as integers. -/
structure ResearchState where
  notepad : String
  asked_followup : Bool
  start_time : Int
  min_duration : Int
deriving DecidableEq

/-- `Research.__init__` at start timestamp `t0`. -/
def researchInit (t0 : Int) : ResearchState :=
  { notepad := "", asked_followup := false, start_time := t0, min_duration := 5 * 60 }

/-- `Research.has_full_tool_access`. -/
def has_full_tool_access (s : ResearchState) : Bool :=
  s.asked_followup

/-- `Research.can_respond_to_user`, with `time.time()` passed as `now`. -/
def can_respond_to_user (s : ResearchState) (now : Int) : Bool :=
  has_full_tool_access s && decide (s.min_duration < now - s.start_time)

/-- Availability predicate of `Research.RespondToUser`:
`self.can_respond_to_user() == True or self.asked_followup == False`. -/
def respondToUserPredicate (s : ResearchState) (now : Int) : Bool :=
  (can_respond_to_user s now == true) || (s.asked_followup == false)

/-- Availability predicate of `Research.PerplexitySearch`. -/
def perplexitySearchPredicate (s : ResearchState) : Bool :=
  has_full_tool_access s

/-- Availability predicate of `Research.TakeNote`. -/
def takeNotePredicate (s : ResearchState) : Bool :=
  has_full_tool_access s

/-- Availability predicate of `Research.ReadNotes`. -/
def readNotesPredicate (s : ResearchState) : Bool :=
  has_full_tool_access s

/-- Availability predicate of `Research.WebSearch`. -/
def webSearchPredicate (s : ResearchState) : Bool :=
  has_full_tool_access s

/-- Availability predicate of `Research.SearchNewsArticles`. -/
def searchNewsArticlesPredicate (s : ResearchState) : Bool :=
  has_full_tool_access s

/-- Availability predicate of `Research.FindRelatedKeywords`. -/
def findRelatedKeywordsPredicate (s : ResearchState) : Bool :=
  has_full_tool_access s

/-- Availability predicate of `Research.GoogleTrends`. -/
def googleTrendsPredicate (s : ResearchState) : Bool :=
  has_full_tool_access s

/-- Availability predicate of `Research.WriteFile`. -/
def writeFilePredicate (s : ResearchState) : Bool :=
  has_full_tool_access s

/-- Availability predicate of `Research.ReadFile`. -/
def readFilePredicate (s : ResearchState) : Bool :=
  has_full_tool_access s

/-- Availability predicate of `Research.ExecuteCommand`. -/
def executeCommandPredicate (s : ResearchState) : Bool :=
  has_full_tool_access s

/-- `Research.RespondToUser`: sets `asked_followup`, resets `start_time` to
`now`, then attempts the file upload; an upload failure is re-raised as
`RuntimeError`, modelled as `Except.error`.  The upload outcome is the
explicit parameter `upload`. -/
def researchRespondToUser (s : ResearchState) (now : Int) (response : String)
    (files : List String) (upload : Except String (List String)) :
    ResearchState × Except String RespondToUserReturnType :=
  let s2 := { s with asked_followup := true, start_time := now }
  if files.isEmpty then
    (s2, .ok { response := response, files := [] })
  else
    match upload with
    | .ok ufs => (s2, .ok { response := response, files := ufs })
    | .error e => (s2, .error ("Failed to upload files: " ++ e))

/-- `Research.WriteFile`: swaps `path`/`content` when the path is longer,
creates the file unconditionally and reports the byte count. -/
def researchWriteFile (fs : FS) (path content : String) : FS × String :=
  let pc := if path.length > content.length then (content, path) else (path, content)
  (fsWrite fs pc.1 pc.2,
    "Wrote " ++ toString pc.2.length ++ " bytes successfully to " ++ basename pc.1)

/-- The effective subprocess timeout of `Research.ExecuteCommand`: commands
containing `pip` or `apk` get 300 seconds regardless of the caller value. -/
def researchEffectiveTimeout (command : String) (timeout : Int) : Int :=
  if strContains command "pip" || strContains command "apk" then 300 else timeout

/-- `Research.ExecuteCommand`: returns the timeout passed to
`subprocess.check_output` together with the two-element result list. -/
def researchExecuteCommand (command : String) (timeout : Int)
    (outcome : ShellOutcome) : Int × List String :=
  (researchEffectiveTimeout command timeout,
    match outcome with
    | .ok out => [out, command]
    | .calledProcessError rc out =>
        ["Shell Command Error (" ++ toString rc ++ "): " ++ out, command]
    | .timeoutExpired => ["Shell Command Timeout", command]
    | .otherError m tr =>
        ["Shell Command Error: " ++ m ++ "\n Traceback:" ++ tr, command])

/-- `PerplexitySearcher.run` (`GettingStarted/Research/perplexity.py`): a
single HTTP call with no exception handling, so a failing call propagates.
The network outcome is the explicit parameter. -/
def perplexitySearchRun (net : Except String String) : Except String String :=
  match net with
  | .ok content => .ok content
  | .error e => .error e

/-! ### Code agent (`example_apps/Code/code.py`) -/

/-- Per-session state of the `Code` class (`code.py`): permission flag and
failure counter. -/
structure CodeState where
  can_call_external_model : Bool
  failures : Nat
deriving DecidableEq

/-- `Code.__init__` (`code.py`). -/
def codeInit : CodeState :=
  { can_call_external_model := false, failures := 0 }

/-- `Code.RespondToUser` (`code.py`): text response only, no state change. -/
def codeRespondToUser (response : String) : RespondToUserReturnType :=
  { response := response, files := [] }

/-- Outcome of reading a file in `ReadFile`, passed explicitly. -/
inductive ReadOutcome where
  | missing
  | ok (lines : List String)
  | err (msg : String) (trace : String)
deriving DecidableEq

/-- `Code.ReadFile` (`code.py`): returns the joined (possibly truncated)
lines, or an error string; an exception increments the failure counter. -/
def codeReadFile (s : CodeState) (path : String) (max_lines : Int)
    (outcome : ReadOutcome) : CodeState × String :=
  match outcome with
  | .missing => (s, "ReadFile Error: <File " ++ path ++ " does not exist.>")
  | .ok lines =>
      (s, String.join (if max_lines > 0 then lines.take max_lines.toNat else lines))
  | .err m tr =>
      ({ s with failures := s.failures + 1 },
        "ReadFile Error: path " ++ path ++ ": " ++ m ++ ">\nTraceback: " ++ tr)

/-- `Code.WriteFile` (`code.py`; the `code_diff.py` copy is identical up to
the failure counter, which only moves on an unmodelled I/O exception):
swaps `path`/`content` when the path is longer, then either reports the file
unchanged, returns a unified diff (or a diff-empty message) without writing,
or creates the file and echoes its content. -/
def codeWriteFile (s : CodeState) (fs : FS) (path content : String) :
    CodeState × FS × String :=
  let pc := if path.length > content.length then (content, path) else (path, content)
  match fsRead fs pc.1 with
  | some old =>
      if old == pc.2 then
        (s, fs, "`" ++ pc.1 ++ "` unchanged; no write performed.")
      else
        let d := unifiedDiffJoined (pySplitlines old) (pySplitlines pc.2)
          ("a/" ++ basename pc.1) ("b/" ++ basename pc.1)
        if pyStrip d == "" then
          (s, fs, "`" ++ pc.1 ++ "` diff empty; no write performed.")
        else
          (s, fs, "```patch\n" ++ d ++ "\n```")
  | none =>
      (s, fsWrite fs pc.1 pc.2,
        "Wrote new file `" ++ pc.1 ++ "`.\n```" ++ pc.2 ++ "```")

/-- `Code.WriteFileAndSendToUser` (`code.py`; `code_diff.py` identical):
writes via `WriteFile`, then uploads the original `path`; an upload failure
is re-raised as `RuntimeError`, modelled as `Except.error`.  Uploaded files
get the basename of `path` as display metadata. -/
def codeWriteFileAndSendToUser (s : CodeState) (fs : FS) (path content : String)
    (upload : Except String (List String)) :
    CodeState × FS × Except String RespondToUserReturnType :=
  let w := codeWriteFile s fs path content
  let resp := basename path ++ "\n" ++ w.2.2
  if pyStartsWith resp "Error writing file" then
    (w.1, w.2.1, .ok { response := resp, files := [] })
  else
    match upload with
    | .ok ufs =>
        (w.1, w.2.1, .ok { response := resp, files := ufs.map (fun _ => basename path) })
    | .error e =>
        (w.1, w.2.1, .error ("Failed to upload files: " ++ e))

/-- `Code.ExecuteCommand` (`code.py`): two-element `[output, command]`
result; every failure outcome increments the failure counter. -/
def codeExecuteCommand (s : CodeState) (command : String) (timeout : Int)
    (outcome : ShellOutcome) : CodeState × List String :=
  match outcome with
  | .ok out => (s, [out, command])
  | .calledProcessError rc out =>
      ({ s with failures := s.failures + 1 },
        ["Shell Command Error (" ++ toString rc ++ "): " ++ out, command])
  | .timeoutExpired =>
      ({ s with failures := s.failures + 1 }, ["Shell Command Timeout", command])
  | .otherError m tr =>
      ({ s with failures := s.failures + 1 },
        ["Shell Command Error: " ++ m ++ "\n Traceback:" ++ tr, command])

/-- Availability predicate of `Code.AskForPermissionToUseExternalModel`:
`self.can_call_external_model == False and self.failures > 1`. -/
def askForPermissionPredicate (s : CodeState) : Bool :=
  (s.can_call_external_model == false) && decide (s.failures > 1)

/-- `Code.AskForPermissionToUseExternalModel`: grants the permission flag
and returns the permission-request response. -/
def askForPermissionToUseExternalModel (s : CodeState) (reason : String) :
    CodeState × RespondToUserReturnType :=
  ({ s with can_call_external_model := true },
    { response := "I need to call a more powerful external model to help me with this task. "
        ++ reason,
      files := [] })

/-- `Code.AskForHelp`: one external model call; failures are caught and
returned as an error string, no state change. -/
def askForHelp (s : CodeState) (outcome : Except String String) : CodeState × String :=
  (s, match outcome with
      | .ok content => content
      | .error e => "OpenAI Error: " ++ e)

/-- `Code.SetOpenAIApiKey`: the persistent store (`globals["openai_api_key"]`)
is modelled as an `Option String`.  Invalid keys are rejected and the store
is unchanged; valid keys are stored and a fixed masked confirmation is
returned. -/
def setOpenAIApiKey (store : Option String) (key : String) : Option String × String :=
  if !(pyStartsWith key "sk-") then
    (store, "Error: Invalid OpenAI API key format.")
  else
    (some key, "set openai_api_key sk-...")

/-- One tool invocation of the `Code` agent (`code.py`), as a relation on
the per-session state.  `RespondToUser` and `SetOpenAIApiKey` do not touch
`CodeState` (the latter mutates only the external store). -/
inductive CodeStep : CodeState → CodeState → Prop where
  | respondToUser (s : CodeState) (response : String) : CodeStep s s
  | readFile (s : CodeState) (path : String) (max_lines : Int) (outcome : ReadOutcome) :
      CodeStep s (codeReadFile s path max_lines outcome).1
  | writeFile (s : CodeState) (fs : FS) (path content : String) :
      CodeStep s (codeWriteFile s fs path content).1
  | writeFileAndSendToUser (s : CodeState) (fs : FS) (path content : String)
      (upload : Except String (List String)) :
      CodeStep s (codeWriteFileAndSendToUser s fs path content upload).1
  | executeCommand (s : CodeState) (command : String) (timeout : Int)
      (outcome : ShellOutcome) :
      CodeStep s (codeExecuteCommand s command timeout outcome).1
  | askForPermission (s : CodeState) (reason : String) :
      CodeStep s (askForPermissionToUseExternalModel s reason).1
  | askForHelpStep (s : CodeState) (outcome : Except String String) :
      CodeStep s (askForHelp s outcome).1
  | setApiKey (s : CodeState) (key : String) : CodeStep s s

/-! ### code_diff Code agent (`example_apps/Code/code_diff.py`) -/

/-- `Code.RespondToUser` in `code_diff.py`: attaches files; an upload
failure is re-raised as `RuntimeError`, modelled as `Except.error`. -/
def codeDiffRespondToUser (response : String) (files : List String)
    (upload : Except String (List String)) : Except String RespondToUserReturnType :=
  if files.isEmpty then
    .ok { response := response, files := [] }
  else
    match upload with
    | .ok ufs => .ok { response := response, files := ufs }
    | .error e => .error ("Failed to upload files: " ++ e)

/-! ### Realtor agent (`example_apps/Realtor/main.py`) -/

/-- `RealtorApp._run_cmd`, the body of `RealtorApp.ExecuteCommand`: returns
one formatted string for every outcome (the message for a timeout contains
the literal text `{timeout}` because the source string is not an f-string). -/
def realtorRunCmd (command : String) (timeout : Int) (outcome : ShellOutcome) : String :=
  match outcome with
  | .ok out => "```\n$ " ++ command ++ "\n " ++ out ++ "\n```"
  | .calledProcessError rc out =>
      "Shell Command Returned Error Code:`" ++ toString rc ++ "`\n```\n" ++ out ++ "\n```"
  | .timeoutExpired => "Shell Command timed after \x7btimeout\x7d seconds"
  | .otherError m tr =>
      "Shell Command Error: ```\n" ++ m ++ "\n```\n Traceback:\n```\n" ++ tr ++ "\n```"

/-- `RealtorApp.ExecuteCommand`: delegates to `_run_cmd`. -/
def realtorExecuteCommand (command : String) (timeout : Int)
    (outcome : ShellOutcome) : String :=
  realtorRunCmd command timeout outcome

/-! ### Theorems -/

/-- C1: in every Research session state with `asked_followup = false`, the
`RespondToUser` availability predicate is true and the predicate of each of
the ten full-access-only tools (PerplexitySearch, TakeNote, ReadNotes,
WebSearch, SearchNewsArticles, FindRelatedKeywords, GoogleTrends, WriteFile,
ReadFile, ExecuteCommand) is false. -/
theorem research_restricted_phase (s : ResearchState) (now : Int)
    (h : s.asked_followup = false) :
    respondToUserPredicate s now = true ∧
    perplexitySearchPredicate s = false ∧
    takeNotePredicate s = false ∧
    readNotesPredicate s = false ∧
    webSearchPredicate s = false ∧
    searchNewsArticlesPredicate s = false ∧
    findRelatedKeywordsPredicate s = false ∧
    googleTrendsPredicate s = false ∧
    writeFilePredicate s = false ∧
    readFilePredicate s = false ∧
    executeCommandPredicate s = false := by
  simp [respondToUserPredicate, perplexitySearchPredicate, takeNotePredicate,
    readNotesPredicate, webSearchPredicate, searchNewsArticlesPredicate,
    findRelatedKeywordsPredicate, googleTrendsPredicate, writeFilePredicate,
    readFilePredicate, executeCommandPredicate, can_respond_to_user,
    has_full_tool_access, h]

/-- Witness for `research_restricted_phase` at the freshly initialised
state. -/
theorem research_restricted_phase_witness :
    respondToUserPredicate (researchInit 0) 7 = true ∧
    perplexitySearchPredicate (researchInit 0) = false :=
  ⟨(research_restricted_phase (researchInit 0) 7 rfl).1,
    (research_restricted_phase (researchInit 0) 7 rfl).2.1⟩

/-- C2: in every Research session state with `asked_followup = true` and
elapsed time strictly below `min_duration`, `can_respond_to_user` is false
(hence the `RespondToUser` availability predicate is false), while every
tool gated solely by `has_full_tool_access` has a true predicate. -/
theorem research_awaiting_min_duration (s : ResearchState) (now : Int)
    (hltrue : s.asked_followup = true)
    (h : now - s.start_time < s.min_duration) :
    can_respond_to_user s now = false ∧
    respondToUserPredicate s now = false ∧
    perplexitySearchPredicate s = true ∧
    takeNotePredicate s = true ∧
    readNotesPredicate s = true ∧
    webSearchPredicate s = true ∧
    searchNewsArticlesPredicate s = true ∧
    findRelatedKeywordsPredicate s = true ∧
    googleTrendsPredicate s = true ∧
    writeFilePredicate s = true ∧
    readFilePredicate s = true ∧
    executeCommandPredicate s = true := by
  have hnot : ¬ (s.min_duration < now - s.start_time) := by omega
  simp [respondToUserPredicate, perplexitySearchPredicate, takeNotePredicate,
    readNotesPredicate, webSearchPredicate, searchNewsArticlesPredicate,
    findRelatedKeywordsPredicate, googleTrendsPredicate, writeFilePredicate,
    readFilePredicate, executeCommandPredicate, can_respond_to_user,
    has_full_tool_access, h, hltrue, hnot]

/-- Witness for `research_awaiting_min_duration`: follow-up asked at time 0,
queried 10 seconds later (minimum duration 300). -/
theorem research_awaiting_min_duration_witness :
    can_respond_to_user
      { notepad := "", asked_followup := true, start_time := 0, min_duration := 300 } 10
      = false ∧
    respondToUserPredicate
      { notepad := "", asked_followup := true, start_time := 0, min_duration := 300 } 10
      = false :=
  ⟨(research_awaiting_min_duration _ 10 rfl (by decide)).1,
    (research_awaiting_min_duration _ 10 rfl (by decide)).2.1⟩

/-- C3: every invocation of `Research.RespondToUser` sets `asked_followup`
and resets `start_time` to the invocation time, for every upload outcome
(including a failing upload, where the tool raises after mutating);
repeating the call keeps `asked_followup` true and resets the timer again. -/
theorem research_respond_mutations (s : ResearchState) (now : Int)
    (response : String) (files : List String)
    (upload : Except String (List String)) :
    ((researchRespondToUser s now response files upload).1.asked_followup = true ∧
      (researchRespondToUser s now response files upload).1.start_time = now) ∧
    (∀ (now2 : Int) (response2 : String) (files2 : List String)
        (upload2 : Except String (List String)),
      (researchRespondToUser (researchRespondToUser s now response files upload).1
          now2 response2 files2 upload2).1.asked_followup = true ∧
      (researchRespondToUser (researchRespondToUser s now response files upload).1
          now2 response2 files2 upload2).1.start_time = now2) ∧
    (∀ e : String, files ≠ [] → upload = .error e →
      (researchRespondToUser s now response files upload).1.asked_followup = true ∧
      (researchRespondToUser s now response files upload).1.start_time = now ∧
      (researchRespondToUser s now response files upload).2
        = .error ("Failed to upload files: " ++ e)) := by
  refine ⟨?_, ?_, ?_⟩
  · cases upload <;> cases files <;>
      simp [researchRespondToUser]
  · intro now2 response2 files2 upload2
    cases upload <;> cases files <;> cases upload2 <;> cases files2 <;>
      simp [researchRespondToUser]
  · intro e hfiles hupload
    subst hupload
    cases files with
    | nil => exact absurd rfl hfiles
    | cons a l => simp [researchRespondToUser]

/-- Witness for `research_respond_mutations`: a call with one attached file
and a failing upload still flips the flag and resets the timer, and the
tool surfaces the upload error. -/
theorem research_respond_mutations_witness :
    (researchRespondToUser (researchInit 0) 42 "hi" ["/root/a.txt"]
        (.error "boom")).1.asked_followup = true ∧
    (researchRespondToUser (researchInit 0) 42 "hi" ["/root/a.txt"]
        (.error "boom")).1.start_time = 42 ∧
    (researchRespondToUser (researchInit 0) 42 "hi" ["/root/a.txt"]
        (.error "boom")).2 = .error ("Failed to upload files: " ++ "boom") :=
  (research_respond_mutations (researchInit 0) 42 "hi" ["/root/a.txt"]
      (.error "boom")).2.2 "boom" (by simp) rfl

/-- Stripping a string whose data starts with a non-whitespace character
leaves a non-empty string. -/
lemma pyStrip_ne_empty (s : String) (c : Char) (l : List Char)
    (hd : s.data = c :: l) (hc : c.isWhitespace = false) : pyStrip s ≠ "" := by
  intro h
  unfold pyStrip at h
  rw [hd] at h
  have hdata : (((c :: l).dropWhile Char.isWhitespace).reverse.dropWhile
      Char.isWhitespace).reverse = [] := congrArg String.data h
  rw [List.dropWhile_cons, hc] at hdata
  simp only [Bool.false_eq_true, if_false, List.reverse_eq_nil_iff,
    List.dropWhile_eq_nil_iff] at hdata
  have := hdata c (by simp)
  rw [hc] at this
  exact Bool.false_ne_true this

/-- The joined unified diff of two distinct line lists does not strip to
the empty string (it starts with a `---` header). -/
lemma unifiedDiffJoined_strip_ne_empty (a b : List String) (ff tf : String)
    (hab : a ≠ b) : pyStrip (unifiedDiffJoined a b ff tf) ≠ "" := by
  have hne : (a == b) = false := beq_eq_false_iff_ne.2 hab
  unfold unifiedDiffJoined
  rw [hne]
  simp only [Bool.false_eq_true, if_false]
  exact pyStrip_ne_empty _ '-' _ (by rw [String.data_append]; rfl) (by decide)

/-- C4 (counterexample): two file-write tool invocations violating the
claim.  First, `Research.WriteFile` on an existing path whose content is
identical to the new content does not return an unchanged-message but
rewrites and reports a byte count.  Second, `Code.WriteFile` on an existing
path whose content differs only by a trailing newline returns a diff-empty
message rather than a non-empty unified diff. -/
theorem write_file_claim_counterexample :
    ((researchWriteFile [("f", "ab")] "f" "ab").2
        = "Wrote 2 bytes successfully to f" ∧
      (researchWriteFile [("f", "ab")] "f" "ab").2
        ≠ "`f` unchanged; no write performed.") ∧
    ("a" ≠ "a\n" ∧
      (codeWriteFile codeInit [("f", "a")] "f" "a\n").2.2
        = "`f` diff empty; no write performed." ∧
      pyStartsWith (codeWriteFile codeInit [("f", "a")] "f" "a\n").2.2 "```patch"
        = false) := by
  refine ⟨⟨?_, ?_⟩, ?_, ?_, ?_⟩ <;> decide

/-- C4 (amended): `Code.WriteFile` (`code.py`/`code_diff.py`) satisfies the
claim with two amendments — after the length-based argument swap, an
existing file with identical content yields an unchanged-message and no
filesystem change; an existing file with different content yields a
non-empty unified diff and no write, unless old and new content split into
the same line lists, in which case a diff-empty message is returned and no
write occurs; a missing path is created and the result echoes the content.
The Research agents' `WriteFile` instead writes unconditionally and reports
only a byte count. -/
theorem code_write_file_spec :
    (∀ (s : CodeState) (fs : FS) (path content : String),
      path.length > content.length →
        codeWriteFile s fs path content = codeWriteFile s fs content path) ∧
    (∀ (s : CodeState) (fs : FS) (path content : String),
      ¬ path.length > content.length →
        (fsRead fs path = some content →
          codeWriteFile s fs path content
            = (s, fs, "`" ++ path ++ "` unchanged; no write performed.")) ∧
        (∀ old, fsRead fs path = some old → old ≠ content →
          pySplitlines old = pySplitlines content →
          codeWriteFile s fs path content
            = (s, fs, "`" ++ path ++ "` diff empty; no write performed.")) ∧
        (∀ old, fsRead fs path = some old → old ≠ content →
          pySplitlines old ≠ pySplitlines content →
          (codeWriteFile s fs path content).2.1 = fs ∧
          ∃ d, (codeWriteFile s fs path content).2.2 = "```patch\n" ++ d ++ "\n```"
            ∧ pyStrip d ≠ "") ∧
        (fsRead fs path = none →
          (codeWriteFile s fs path content).2.1 = fsWrite fs path content ∧
          ∃ pre post,
            (codeWriteFile s fs path content).2.2 = pre ++ content ++ post)) ∧
    (∀ (fs : FS) (path content : String),
      ¬ path.length > content.length →
        researchWriteFile fs path content
          = (fsWrite fs path content,
            "Wrote " ++ toString content.length ++ " bytes successfully to "
              ++ basename path)) := by
  refine ⟨?_, ?_, ?_⟩
  · intro s fs path content h
    have h2 : ¬ content.length > path.length := by omega
    simp only [codeWriteFile, if_pos h, if_neg h2]
  · intro s fs path content hle
    refine ⟨?_, ?_, ?_, ?_⟩
    · intro h1
      simp [codeWriteFile, if_neg hle, h1]
    · intro old h1 hne heq
      have hbeq : (old == content) = false := beq_eq_false_iff_ne.2 hne
      simp [codeWriteFile, if_neg hle, h1, hbeq, heq, unifiedDiffJoined, pyStrip]
    · intro old h1 hne hsp
      have hbeq : (old == content) = false := beq_eq_false_iff_ne.2 hne
      have hd := unifiedDiffJoined_strip_ne_empty (pySplitlines old)
        (pySplitlines content) ("a/" ++ basename path) ("b/" ++ basename path) hsp
      have hdbeq :
          (pyStrip (unifiedDiffJoined (pySplitlines old) (pySplitlines content)
            ("a/" ++ basename path) ("b/" ++ basename path)) == "") = false :=
        beq_eq_false_iff_ne.2 hd
      refine ⟨?_, ?_⟩
      · simp [codeWriteFile, if_neg hle, h1, hbeq, hdbeq]
      · refine ⟨unifiedDiffJoined (pySplitlines old) (pySplitlines content)
          ("a/" ++ basename path) ("b/" ++ basename path), ?_, hd⟩
        simp [codeWriteFile, if_neg hle, h1, hbeq, hdbeq]
    · intro h1
      refine ⟨?_, ?_⟩
      · simp [codeWriteFile, if_neg hle, h1]
      · refine ⟨"Wrote new file `" ++ path ++ "`.\n```", "```", ?_⟩
        simp [codeWriteFile, if_neg hle, h1]
  · intro fs path content hle
    simp [researchWriteFile, if_neg hle]

/-- Witness for `code_write_file_spec`: instantiations of the swap clause,
the unchanged clause, the non-empty-diff clause and the new-file clause. -/
theorem code_write_file_spec_witness :
    codeWriteFile codeInit [] "/root/x.md" "hi"
      = codeWriteFile codeInit [] "hi" "/root/x.md" ∧
    codeWriteFile codeInit [("f", "same")] "f" "same"
      = (codeInit, [("f", "same")], "`" ++ "f" ++ "` unchanged; no write performed.") ∧
    (codeWriteFile codeInit [("f", "old line")] "f" "new line!").2.1
      = [("f", "old line")] ∧
    (codeWriteFile codeInit [] "g" "body").2.1 = fsWrite [] "g" "body" := by
  refine ⟨?_, ?_, ?_, ?_⟩
  · exact code_write_file_spec.1 codeInit [] "/root/x.md" "hi" (by decide)
  · exact (code_write_file_spec.2.1 codeInit [("f", "same")] "f" "same"
      (by decide)).1 (by decide)
  · exact ((code_write_file_spec.2.1 codeInit [("f", "old line")] "f" "new line!"
      (by decide)).2.2.1 "old line" (by decide) (by decide) (by decide)).1
  · exact ((code_write_file_spec.2.1 codeInit [] "g" "body"
      (by decide)).2.2.2 (by decide)).1

/-- C5 (counterexample): in `Code.WriteFile`, the legitimate short content
`"ok"` against the longer path `"/root/report.md"` triggers the swap, but
when the swapped target `"ok"` already exists the tool performs no write at
all — the filesystem is unchanged and the location named by the content
argument does not hold the path argument — contradicting "the file is
written at the location named by the content argument". -/
theorem code_write_swap_counterexample :
    "/root/report.md".length > "ok".length ∧
    (codeWriteFile codeInit [("ok", "x")] "/root/report.md" "ok").2.1
      = [("ok", "x")] ∧
    fsRead (codeWriteFile codeInit [("ok", "x")] "/root/report.md" "ok").2.1 "ok"
      ≠ some "/root/report.md" := by
  refine ⟨?_, ?_, ?_⟩ <;> decide

/-- C5 (amended): in every file-write tool the `path`/`content` arguments
are swapped before any filesystem access whenever the `path` argument is
strictly longer than the `content` argument, and used as given otherwise —
the short legitimate content `"ok"` against a longer path triggers the
swap.  The Research agents' `WriteFile` then writes unconditionally at the
location named by the content argument with the path argument as its body;
the Code agents' `WriteFile` feeds the swapped pair into its diff logic, so
it writes at that location only when the location does not already exist,
and leaves the filesystem untouched when it does. -/
theorem write_file_swap_spec :
    (∀ (fs : FS) (path content : String),
      (researchWriteFile fs path content).1
        = if path.length > content.length then fsWrite fs content path
          else fsWrite fs path content) ∧
    ((researchWriteFile [] "/root/report.md" "ok").1
      = fsWrite [] "ok" "/root/report.md" ∧
      "/root/report.md".length > "ok".length) ∧
    (∀ (s : CodeState) (fs : FS) (path content : String),
      path.length > content.length →
        codeWriteFile s fs path content = codeWriteFile s fs content path) ∧
    (∀ (s : CodeState) (fs : FS) (path content : String),
      path.length > content.length → fsRead fs content = none →
        (codeWriteFile s fs path content).2.1 = fsWrite fs content path) ∧
    (∀ (s : CodeState) (fs : FS) (path content : String) (old : String),
      path.length > content.length → fsRead fs content = some old →
        (codeWriteFile s fs path content).2.1 = fs) := by
  refine ⟨?_, ⟨by decide, by decide⟩, ?_, ?_, ?_⟩
  · intro fs path content
    by_cases h : path.length > content.length <;>
      simp [researchWriteFile, h]
  · intro s fs path content h
    have h2 : ¬ content.length > path.length := by omega
    simp only [codeWriteFile, if_pos h, if_neg h2]
  · intro s fs path content h h0
    simp [codeWriteFile, if_pos h, h0]
  · intro s fs path content old h h0
    simp only [codeWriteFile, if_pos h, h0]
    split
    · rfl
    · split <;> rfl

/-- Witness for `write_file_swap_spec`: with the swap triggered,
`Code.WriteFile` creates the file at the swapped location when it is
missing and leaves the filesystem unchanged when it exists. -/
theorem write_file_swap_spec_witness :
    (codeWriteFile codeInit [] "/tmp/a.txt" "no").2.1
      = fsWrite [] "no" "/tmp/a.txt" ∧
    (codeWriteFile codeInit [("no", "z")] "/tmp/a.txt" "no").2.1
      = [("no", "z")] :=
  ⟨write_file_swap_spec.2.2.2.1 codeInit [] "/tmp/a.txt" "no"
      (by decide) (by decide),
    write_file_swap_spec.2.2.2.2 codeInit [("no", "z")] "/tmp/a.txt" "no" "z"
      (by decide) (by decide)⟩

/-- C6 (counterexample): the degenerate but validly prefixed key `"sk-"`
is stored, and the fixed confirmation string contains the full secret
value (`"set openai_api_key sk-..."` is `"set openai_api_key " ++ "sk-"
++ "..."`), contradicting "never contains the full secret value, for every
possible key". -/
theorem set_openai_api_key_counterexample :
    (setOpenAIApiKey none "sk-").1 = some "sk-" ∧
    (setOpenAIApiKey none "sk-").2 = "set openai_api_key " ++ "sk-" ++ "..." := by
  refine ⟨?_, ?_⟩ <;> decide

/-- C6 (amended): an invalidly prefixed key is rejected with the store left
unchanged; a key with the `sk-` prefix is stored and the confirmation is
the fixed masked string `"set openai_api_key sk-..."`, independent of the
key.  The confirmation (and the rejection message) cannot contain any key
longer than 37 characters — in particular any real OpenAI key — though a
degenerate short key such as `"sk-"` does occur inside the fixed
confirmation. -/
theorem set_openai_api_key_spec (store : Option String) (key : String) :
    (pyStartsWith key "sk-" = false →
      setOpenAIApiKey store key = (store, "Error: Invalid OpenAI API key format.")) ∧
    (pyStartsWith key "sk-" = true →
      setOpenAIApiKey store key = (some key, "set openai_api_key sk-...")) ∧
    (37 < key.length → ∀ pre post : String,
      (setOpenAIApiKey store key).2 ≠ pre ++ key ++ post) := by
  refine ⟨?_, ?_, ?_⟩
  · intro h; simp [setOpenAIApiKey, h]
  · intro h; simp [setOpenAIApiKey, h]
  · intro hlen pre post heq
    have hmsg : (setOpenAIApiKey store key).2.length ≤ 37 := by
      unfold setOpenAIApiKey
      by_cases h : pyStartsWith key "sk-" <;> simp [h] <;> decide
    rw [heq] at hmsg
    rw [String.length_append, String.length_append] at hmsg
    omega

/-- Witness for `set_openai_api_key_spec`: a rejected malformed key, an
accepted prefixed key, and non-containment for a 40-character key. -/
theorem set_openai_api_key_spec_witness :
    setOpenAIApiKey none "abc"
      = (none, "Error: Invalid OpenAI API key format.") ∧
    setOpenAIApiKey none "sk-aaaaaaaaaaaaaaaaaaaaaaaaaaaaaaaaaaaaa"
      = (some "sk-aaaaaaaaaaaaaaaaaaaaaaaaaaaaaaaaaaaaa",
        "set openai_api_key sk-...") ∧
    (setOpenAIApiKey none "sk-aaaaaaaaaaaaaaaaaaaaaaaaaaaaaaaaaaaaa").2
      ≠ "" ++ "sk-aaaaaaaaaaaaaaaaaaaaaaaaaaaaaaaaaaaaa" ++ "" :=
  ⟨(set_openai_api_key_spec none "abc").1 (by decide),
    (set_openai_api_key_spec none "sk-aaaaaaaaaaaaaaaaaaaaaaaaaaaaaaaaaaaaa").2.1
      (by decide),
    (set_openai_api_key_spec none "sk-aaaaaaaaaaaaaaaaaaaaaaaaaaaaaaaaaaaaa").2.2
      (by decide) "" ""⟩

/-- C7 (counterexample): the Realtor agent also exposes an `ExecuteCommand`
tool, and on a non-zero exit status it returns one formatted string (of
type `String`, not a two-element list); the string does not even contain
the original command. -/
theorem realtor_execute_command_counterexample :
    realtorExecuteCommand "ls /x" 5 (.calledProcessError 2 "boom")
      = "Shell Command Returned Error Code:`2`\n```\nboom\n```" ∧
    strContains (realtorExecuteCommand "ls /x" 5 (.calledProcessError 2 "boom"))
      "ls /x" = false := by
  refine ⟨?_, ?_⟩ <;> decide

/-- C7 (amended): in the Code and Research agents, a shell command that
exits with a non-zero status yields exactly the two-element list
`[errorText, originalCommand]` with the second element the command as
passed in; the Code agent increments its failure counter by exactly one,
while the Research agents have no failure counter and return the same
two-element shape.  The Realtor agent's `ExecuteCommand` instead returns a
single formatted string. -/
theorem execute_command_failure_spec (s : CodeState) (rc : Int)
    (out cmd : String) (t : Int) (hrc : rc ≠ 0) :
    codeExecuteCommand s cmd t (.calledProcessError rc out)
      = ({ s with failures := s.failures + 1 },
        ["Shell Command Error (" ++ toString rc ++ "): " ++ out, cmd]) ∧
    (codeExecuteCommand s cmd t (.calledProcessError rc out)).1.failures
      = s.failures + 1 ∧
    (researchExecuteCommand cmd t (.calledProcessError rc out)).2
      = ["Shell Command Error (" ++ toString rc ++ "): " ++ out, cmd] ∧
    (researchExecuteCommand cmd t (.calledProcessError rc out)).2.length = 2 ∧
    realtorExecuteCommand cmd t (.calledProcessError rc out)
      = "Shell Command Returned Error Code:`" ++ toString rc ++ "`\n```\n"
        ++ out ++ "\n```" := by
  refine ⟨rfl, rfl, ?_, ?_, rfl⟩ <;>
    simp [researchExecuteCommand]

/-- Witness for `execute_command_failure_spec` at exit code 1. -/
theorem execute_command_failure_spec_witness :
    codeExecuteCommand codeInit "false" 5 (.calledProcessError 1 "")
      = ({ codeInit with failures := codeInit.failures + 1 },
        ["Shell Command Error (" ++ toString (1 : Int) ++ "): " ++ "", "false"]) ∧
    (researchExecuteCommand "false" 5 (.calledProcessError 1 "")).2.length = 2 :=
  ⟨(execute_command_failure_spec codeInit 1 "" "false" 5 (by decide)).1,
    (execute_command_failure_spec codeInit 1 "" "false" 5 (by decide)).2.2.2.1⟩

/-- C8 (counterexample): a `pip` command with a caller-supplied timeout of
600 seconds runs with an effective timeout of 300 seconds — the
substitution shrinks the timeout below the caller value. -/
theorem research_timeout_counterexample :
    researchEffectiveTimeout "pip install requests" 600 = 300 ∧
    (researchExecuteCommand "pip install requests" 600 (.ok "done")).1 = 300 ∧
    (300 : Int) < 600 := by
  refine ⟨?_, ?_, ?_⟩ <;> decide

/-- C8 (amended): `Research.ExecuteCommand` substitutes the fixed timeout
300 whenever the command contains `pip` or `apk`, regardless of the
caller-supplied value, and otherwise uses the caller value unchanged; the
substitution therefore never shrinks the effective timeout only when the
caller-supplied value is at most 300. -/
theorem research_timeout_heuristic (cmd : String) (t : Int)
    (outcome : ShellOutcome) :
    ((strContains cmd "pip" || strContains cmd "apk") = true →
      (researchExecuteCommand cmd t outcome).1 = 300) ∧
    ((strContains cmd "pip" || strContains cmd "apk") = false →
      (researchExecuteCommand cmd t outcome).1 = t) ∧
    (t ≤ 300 → t ≤ (researchExecuteCommand cmd t outcome).1) := by
  refine ⟨?_, ?_, ?_⟩
  · intro h; simp [researchExecuteCommand, researchEffectiveTimeout, h]
  · intro h; simp [researchExecuteCommand, researchEffectiveTimeout, h]
  · intro h
    unfold researchExecuteCommand researchEffectiveTimeout
    by_cases hc : (strContains cmd "pip" || strContains cmd "apk") = true
    · simp [hc]
      omega
    · simp [hc]

/-- Witness for `research_timeout_heuristic`: an `apk` command gets 300, a
plain command keeps its timeout, and a caller value below 300 is never
shrunk. -/
theorem research_timeout_heuristic_witness :
    (researchExecuteCommand "apk add curl" 10 (.ok "")).1 = 300 ∧
    (researchExecuteCommand "ls" 10 (.ok "")).1 = 10 ∧
    (10 : Int) ≤ (researchExecuteCommand "ls" 10 (.ok "")).1 :=
  ⟨(research_timeout_heuristic "apk add curl" 10 (.ok "")).1 (by decide),
    (research_timeout_heuristic "ls" 10 (.ok "")).2.1 (by decide),
    (research_timeout_heuristic "ls" 10 (.ok "")).2.2 (by decide)⟩

/-- C9 (counterexample): `Research.RespondToUser` — a tool other than
`WriteFileAndSendToUser` — raises (`Except.error`) when the file upload
fails. -/
theorem respond_raises_counterexample :
    (researchRespondToUser (researchInit 0) 7 "hi" ["/root/f"] (.error "boom")).2
      = .error ("Failed to upload files: " ++ "boom") ∧
    exceptOk (researchRespondToUser (researchInit 0) 7 "hi" ["/root/f"]
      (.error "boom")).2 = false := by
  refine ⟨?_, ?_⟩ <;> rfl

/-- C9 (amended): the upload-failure raise is not unique to
`WriteFileAndSendToUser` — the file-attaching `RespondToUser` tools of the
Research agents and of the code_diff Code agent raise exactly when files
are attached and the upload fails; `WriteFileAndSendToUser` raises only
when its upload fails; and `PerplexitySearch`, which has no exception
handling, propagates a failing network call. -/
theorem tool_raise_spec :
    (∀ (s : ResearchState) (now : Int) (resp : String) (files : List String)
        (up : Except String (List String)),
      exceptOk (researchRespondToUser s now resp files up).2 = false
        ↔ (files ≠ [] ∧ exceptOk up = false)) ∧
    (∀ (resp : String) (files : List String) (up : Except String (List String)),
      exceptOk (codeDiffRespondToUser resp files up) = false
        ↔ (files ≠ [] ∧ exceptOk up = false)) ∧
    (∀ (s : CodeState) (fs : FS) (p c : String)
        (up : Except String (List String)),
      exceptOk (codeWriteFileAndSendToUser s fs p c up).2.2 = false →
        exceptOk up = false) ∧
    (∀ e : String, perplexitySearchRun (.error e) = .error e) := by
  refine ⟨?_, ?_, ?_, fun e => rfl⟩
  · intro s now resp files up
    cases files <;> cases up <;> simp [researchRespondToUser, exceptOk]
  · intro resp files up
    cases files <;> cases up <;> simp [codeDiffRespondToUser, exceptOk]
  · intro s fs p c up h
    unfold codeWriteFileAndSendToUser at h
    by_cases hs : pyStartsWith (basename p ++ "\n" ++ (codeWriteFile s fs p c).2.2)
        "Error writing file" = true
    · simp [hs, exceptOk] at h
    · cases up with
      | ok ufs => simp [eq_false_of_ne_true hs, exceptOk] at h
      | error e => rfl

/-- Witness for `tool_raise_spec`: a failing upload in
`WriteFileAndSendToUser` is indeed reported as a raise. -/
theorem tool_raise_spec_witness :
    exceptOk (Except.error "x" : Except String (List String)) = false :=
  tool_raise_spec.2.2.1 codeInit [] "/a" "hello" (.error "x") (by decide)

/-- The `code.py` `WriteFile` never changes the `CodeState` in the model
(the failure-counter branch corresponds to an I/O exception, which the
filesystem model does not produce). -/
lemma codeWriteFile_fst (s : CodeState) (fs : FS) (p c : String) :
    (codeWriteFile s fs p c).1 = s := by
  unfold codeWriteFile
  dsimp only
  repeat' split
  all_goals rfl

/-- C10: `can_call_external_model` starts false, is set by
`AskForPermissionToUseExternalModel`, is never reset by any tool step, and
hence the permission tool's own availability predicate is false in every
state reachable after one successful invocation — the tool is one-shot per
session. -/
theorem code_permission_one_shot :
    codeInit.can_call_external_model = false ∧
    (∀ (s : CodeState) (reason : String),
      (askForPermissionToUseExternalModel s reason).1.can_call_external_model
        = true) ∧
    (∀ s s' : CodeState, CodeStep s s' →
      s.can_call_external_model = true → s'.can_call_external_model = true) ∧
    (∀ (s : CodeState) (reason : String) (t : CodeState),
      Relation.ReflTransGen CodeStep
        (askForPermissionToUseExternalModel s reason).1 t →
      askForPermissionPredicate t = false) := by
  have mono : ∀ s s' : CodeState, CodeStep s s' →
      s.can_call_external_model = true → s'.can_call_external_model = true := by
    intro s s' h hs
    cases h with
    | respondToUser r => exact hs
    | readFile p m o => cases o <;> simpa [codeReadFile] using hs
    | writeFile fs p c => rw [codeWriteFile_fst]; exact hs
    | writeFileAndSendToUser fs p c up =>
        unfold codeWriteFileAndSendToUser
        dsimp only
        split
        · simpa [codeWriteFile_fst] using hs
        · cases up <;> simpa [codeWriteFile_fst] using hs
    | executeCommand cmd t o => cases o <;> simpa [codeExecuteCommand] using hs
    | askForPermission reason => rfl
    | askForHelpStep o => exact hs
    | setApiKey k => exact hs
  refine ⟨rfl, fun s reason => rfl, mono, ?_⟩
  intro s reason t h
  have hcan : t.can_call_external_model = true := by
    induction h with
    | refl => rfl
    | tail hab hbt ih => exact mono _ _ hbt ih
  simp [askForPermissionPredicate, hcan]

/-- Witness for `code_permission_one_shot`: immediately after granting
permission (zero further steps), the permission tool's predicate is
false. -/
theorem code_permission_one_shot_witness :
    askForPermissionPredicate
      (askForPermissionToUseExternalModel codeInit "need stronger model").1 = false :=
  code_permission_one_shot.2.2.2 codeInit "need stronger model" _
    Relation.ReflTransGen.refl
